import Mathlib

/-!
Verification of the rainwater-tank planning core: the scoring water-balance
model (`fitness_function`), the reporting simulation (`simulate_tank_levels`)
and the genetic optimizer (`run_ga_optimization`).  Numeric values are
modelled as rationals; Python's random draws are modelled by an explicit
stream of unit-interval rationals and a stream of naturals threaded through
every randomized operation.
-/

namespace RainTank

/-- State threaded through the scoring loop of `fitness_function`:
the running storage and the two penalty accumulators. -/
structure ScoreState where
  storage : ℚ
  overflow_penalty : ℚ
  shortage_penalty : ℚ
deriving DecidableEq

/-- One day of the scoring loop (body of the `for` loop in
`fitness_function`): add the inflow, subtract the usage unconditionally,
then add `(storage - capacity) * 2` to the overflow penalty and clamp when
above capacity, then add `|storage| * 5` to the shortage penalty and clamp
when below zero.  A day is a pair `(usage, rainfall_mm)`. -/
def scoreStep (catchment_area_m2 runoff_coefficient tank_capacity_liters : ℚ)
    (st : ScoreState) (day : ℚ × ℚ) : ScoreState :=
  let inflow_liters := day.2 * catchment_area_m2 * runoff_coefficient
  let storage0 := st.storage + inflow_liters
  let storage1 := storage0 - day.1
  let a : ℚ × ℚ :=
    if storage1 > tank_capacity_liters then
      (st.overflow_penalty + (storage1 - tank_capacity_liters) * 2, tank_capacity_liters)
    else (st.overflow_penalty, storage1)
  let b : ℚ × ℚ :=
    if a.2 < 0 then (st.shortage_penalty + |a.2| * 5, 0)
    else (st.shortage_penalty, a.2)
  ⟨b.2, a.1, b.1⟩

/-- `fitness_function` from `fitness_function.py`: runs the scoring loop over
the days (the plan paired with the forecast rainfall, day by day) starting
from the initial storage and returns `1000 - (overflow_penalty +
shortage_penalty)`. -/
def fitness_function (usage_plan forecast : List ℚ)
    (catchment_area_m2 runoff_coefficient tank_capacity_liters
     initial_storage_liters : ℚ) : ℚ :=
  let final := (usage_plan.zip forecast).foldl
    (scoreStep catchment_area_m2 runoff_coefficient tank_capacity_liters)
    ⟨initial_storage_liters, 0, 0⟩
  1000 - (final.overflow_penalty + final.shortage_penalty)

/-- Spec twin for claim C1, transcribed from the claim's wording: starting
from the initial storage, each day `storage += rainfall_mm * catchment_area_m2
* runoff_coefficient`; `storage -= usage` unconditionally; then if
`storage > tank_capacity` the overflow penalty accumulates
`(storage - tank_capacity) * 2` and storage is clamped to the capacity; then
if `storage < 0` the shortage penalty accumulates `|storage| * 5` and storage
is clamped to `0`.  Arguments are storage, overflow penalty, shortage penalty
and the list of `(usage, rainfall)` days; the result is the pair of
accumulated penalties. -/
def specScoringPenalties (catchment_area_m2 runoff_coefficient
    tank_capacity_liters : ℚ) : ℚ → ℚ → ℚ → List (ℚ × ℚ) → ℚ × ℚ
  | _, op, sp, [] => (op, sp)
  | storage, op, sp, day :: rest =>
    let storage1 :=
      storage + day.2 * catchment_area_m2 * runoff_coefficient - day.1
    let op1 := if storage1 > tank_capacity_liters then
        op + (storage1 - tank_capacity_liters) * 2 else op
    let storage2 := if storage1 > tank_capacity_liters then
        tank_capacity_liters else storage1
    let sp1 := if storage2 < 0 then sp + |storage2| * 5 else sp
    let storage3 := if storage2 < 0 then 0 else storage2
    specScoringPenalties catchment_area_m2 runoff_coefficient
      tank_capacity_liters storage3 op1 sp1 rest

/-- One input row of the merged forecast/plan table consumed by
`simulate_tank_levels` (columns `date`, `predicted_rainfall_mm`,
`optimized_usage_liters`); the date is modelled as a natural tag. -/
structure Row where
  date : ℕ
  predicted_rainfall_mm : ℚ
  optimized_usage_liters : ℚ
deriving DecidableEq

/-- One output record of `simulate_tank_levels`. -/
structure DailyBalanceRecord where
  date : ℕ
  rainfall_mm : ℚ
  inflow_liters : ℚ
  usage_liters : ℚ
  storage_liters : ℚ
  overflow_liters : ℚ
  shortage_liters : ℚ
deriving DecidableEq

/-- Python's `round(x, 2)` on the exact rational value. -/
def round2 (x : ℚ) : ℚ := (round (x * 100) : ℚ) / 100

/-- Core of one day of `simulate_tank_levels`: add the inflow to the
storage, compute the overflow against the capacity and clamp, then apply the
usage (in full when it fits, otherwise record the shortage and empty the
tank).  Returns `(new storage, overflow, shortage)`. -/
def dayUpdate (tank_capacity_liters storage inflow_liters
    daily_usage_liters : ℚ) : ℚ × ℚ × ℚ :=
  let storage1 := storage + inflow_liters
  let a : ℚ × ℚ :=
    if storage1 > tank_capacity_liters then
      (storage1 - tank_capacity_liters, tank_capacity_liters)
    else (0, storage1)
  let b : ℚ × ℚ :=
    if a.2 ≥ daily_usage_liters then (a.2 - daily_usage_liters, 0)
    else (0, daily_usage_liters - a.2)
  (b.1, a.1, b.2)

/-- One day of `simulate_tank_levels`: run `dayUpdate` on the row and emit
the day's record, rounding the five derived numeric fields to two decimals
at the point of recording. -/
def simStep (catchment_area_m2 runoff_coefficient tank_capacity_liters : ℚ)
    (storage : ℚ) (row : Row) : ℚ × DailyBalanceRecord :=
  let inflow_liters :=
    row.predicted_rainfall_mm * catchment_area_m2 * runoff_coefficient
  let u := dayUpdate tank_capacity_liters storage inflow_liters
    row.optimized_usage_liters
  (u.1,
   { date := row.date
     rainfall_mm := row.predicted_rainfall_mm
     inflow_liters := round2 inflow_liters
     usage_liters := round2 row.optimized_usage_liters
     storage_liters := round2 u.1
     overflow_liters := round2 u.2.1
     shortage_liters := round2 u.2.2 })

/-- The row loop of `simulate_tank_levels`, appending each day's record to
the accumulated `results` list exactly as the Python loop does. -/
def simLoop (catchment_area_m2 runoff_coefficient tank_capacity_liters : ℚ) :
    ℚ → List DailyBalanceRecord → List Row → List DailyBalanceRecord
  | _, results, [] => results
  | storage, results, row :: rest =>
    let s := simStep catchment_area_m2 runoff_coefficient
      tank_capacity_liters storage row
    simLoop catchment_area_m2 runoff_coefficient tank_capacity_liters s.1
      (results ++ [s.2]) rest

/-- `simulate_tank_levels` from `tank_simulation.py`: runs the daily loop
over the merged rows starting from the initial storage and returns the list
of daily records. -/
def simulate_tank_levels (merged : List Row)
    (catchment_area_m2 runoff_coefficient tank_capacity_liters
     initial_storage_liters : ℚ) : List DailyBalanceRecord :=
  simLoop catchment_area_m2 runoff_coefficient tank_capacity_liters
    initial_storage_liters [] merged

/-- Spec twin for claim C2, transcribed from the claim's wording: per day,
add the inflow to the storage; then check the overflow against the capacity
and clamp (before the usage is applied); then if `storage ≥ usage` subtract
the usage in full with `shortage = 0`, else set `shortage = usage - storage`
and `storage = 0`; emit one record per day whose derived numeric fields
(inflow, usage, storage, overflow, shortage) are each rounded to two decimal
places at the point of recording. -/
def specReportRun (catchment_area_m2 runoff_coefficient
    tank_capacity_liters : ℚ) : ℚ → List Row → List DailyBalanceRecord
  | _, [] => []
  | storage, row :: rest =>
    let inflow :=
      row.predicted_rainfall_mm * catchment_area_m2 * runoff_coefficient
    let storage1 := storage + inflow
    let overflow := if storage1 > tank_capacity_liters then
        storage1 - tank_capacity_liters else 0
    let storage2 := if storage1 > tank_capacity_liters then
        tank_capacity_liters else storage1
    let shortage := if storage2 ≥ row.optimized_usage_liters then 0
        else row.optimized_usage_liters - storage2
    let storage3 := if storage2 ≥ row.optimized_usage_liters then
        storage2 - row.optimized_usage_liters else 0
    { date := row.date
      rainfall_mm := row.predicted_rainfall_mm
      inflow_liters := round2 inflow
      usage_liters := round2 row.optimized_usage_liters
      storage_liters := round2 storage3
      overflow_liters := round2 overflow
      shortage_liters := round2 shortage }
      :: specReportRun catchment_area_m2 runoff_coefficient
           tank_capacity_liters storage3 rest

/-- A candidate usage plan (one value per forecast day). -/
abbrev Plan := List ℚ

/-- Abstract model of Python's module-level random source: a stream of
unit-interval rationals (for `random.random` / `random.uniform`) and a
stream of naturals (for `random.randint` / `random.sample` index choices),
with a cursor into each. -/
structure Rng where
  units : ℕ → ℚ
  nats : ℕ → ℕ
  uIdx : ℕ
  nIdx : ℕ

/-- Draw the next unit-interval rational. -/
def nextUnit (r : Rng) : ℚ × Rng := (r.units r.uIdx, { r with uIdx := r.uIdx + 1 })

/-- Draw the next natural. -/
def nextNat (r : Rng) : ℕ × Rng := (r.nats r.nIdx, { r with nIdx := r.nIdx + 1 })

/-- `random.uniform a b`: `a + t * (b - a)` for a unit draw `t`. -/
def randUniform (a b : ℚ) (r : Rng) : ℚ × Rng :=
  let t := nextUnit r
  (a + t.1 * (b - a), t.2)

/-- `create_individual` from `ga_optimization.py`: a plan of `n` days (one
per forecast row), each drawn uniformly from `[usage_min, usage_max]`. -/
def create_individual (usage_min usage_max : ℚ) : ℕ → Rng → Plan × Rng
  | 0, r => ([], r)
  | n + 1, r =>
    let x := randUniform usage_min usage_max r
    let rest := create_individual usage_min usage_max n x.2
    (x.1 :: rest.1, rest.2)

/-- The initial population: `population_size` fresh individuals. -/
def initPopulation (usage_min usage_max : ℚ) (n : ℕ) : ℕ → Rng → List Plan × Rng
  | 0, r => ([], r)
  | k + 1, r =>
    let ind := create_individual usage_min usage_max n r
    let rest := initPopulation usage_min usage_max n k ind.2
    (ind.1 :: rest.1, rest.2)

/-- `mutate` from `ga_optimization.py`: pick one day index uniformly
(`random.randint(0, len-1)`, modelled as a natural draw mod the length) and
replace that day's usage with a fresh uniform draw. -/
def mutate (usage_min usage_max : ℚ) (individual : Plan) (r : Rng) : Plan × Rng :=
  let d := nextNat r
  let day := d.1 % individual.length
  let v := randUniform usage_min usage_max d.2
  (individual.set day v.1, v.2)

/-- `crossover` from `ga_optimization.py`: single-point crossover at a cut
point `random.randint(1, len-1)` (modelled as `1 +` a natural draw mod
`len - 1`), splicing the parents' prefixes and suffixes. -/
def crossover (parent1 parent2 : Plan) (r : Rng) : (Plan × Plan) × Rng :=
  let m := nextNat r
  let point := 1 + m.1 % (parent1.length - 1)
  ((parent1.take point ++ parent2.drop point,
    parent2.take point ++ parent1.drop point), m.2)

/-- `random.sample(pool, 2)`: two distinct positions of the pool (the
second drawn from the pool with the first removed).  With fewer than two
elements Python raises `ValueError`, modelled as `none`. -/
def sample2 (pool : List Plan) (r : Rng) : Option (Plan × Plan × Rng) :=
  if 2 ≤ pool.length then
    let i := nextNat r
    let j := nextNat i.2
    let first := pool.getD (i.1 % pool.length) []
    let rest := pool.eraseIdx (i.1 % pool.length)
    some (first, rest.getD (j.1 % rest.length) [], j.2)
  else none

/-- The `while len(children) < population_size` loop of
`run_ga_optimization`: sample two parents, cross them over, mutate each
child with probability `mutation_rate`, and append both children.  Each
pass appends exactly two children, so `fuel := target` passes always
suffice from an empty list; the fuel-exhausted guard is unreachable in the
modelled calls. -/
def childrenLoop (usage_min usage_max mutation_rate : ℚ) (selected : List Plan)
    (target : ℕ) : ℕ → List Plan → Rng → Option (List Plan × Rng)
  | 0, children, r =>
    if children.length < target then none else some (children, r)
  | fuel + 1, children, r =>
    if children.length < target then
      match sample2 selected r with
      | none => none
      | some (parent1, parent2, r1) =>
        let cr := crossover parent1 parent2 r1
        let t1 := nextUnit cr.2
        let m1 := if t1.1 < mutation_rate then
            mutate usage_min usage_max cr.1.1 t1.2 else (cr.1.1, t1.2)
        let t2 := nextUnit m1.2
        let m2 := if t2.1 < mutation_rate then
            mutate usage_min usage_max cr.1.2 t2.2 else (cr.1.2, t2.2)
        childrenLoop usage_min usage_max mutation_rate selected target fuel
          (children ++ [m1.1, m2.1]) m2.2
    else some (children, r)

/-- Stable insertion of a scored plan into a descending-sorted list: the
inserted element goes before the first element whose score is not larger,
matching the stable descending order of Python's
`scores.sort(reverse=True, key=lambda x: x[0])`. -/
def insertDesc (x : ℚ × Plan) : List (ℚ × Plan) → List (ℚ × Plan)
  | [] => [x]
  | y :: ys => if x.1 ≥ y.1 then x :: y :: ys else y :: insertDesc x ys

/-- Stable descending sort by score (insertion sort; extensionally the
sorted list Python's stable sort produces). -/
def sortScoresDesc : List (ℚ × Plan) → List (ℚ × Plan)
  | [] => []
  | x :: xs => insertDesc x (sortScoresDesc xs)

/-- The GA configuration and tank/usage parameters of
`run_ga_optimization`. -/
structure GAParams where
  forecast : List ℚ
  catchment_area_m2 : ℚ
  runoff_coefficient : ℚ
  tank_capacity_liters : ℚ
  initial_storage_liters : ℚ
  usage_min : ℚ
  usage_max : ℚ
  population_size : ℕ
  generations : ℕ
  mutation_rate : ℚ

/-- The scored, descending-sorted ranking of a population (the `scores`
list of one generation of `run_ga_optimization`). -/
def rankPop (P : GAParams) (population : List Plan) : List (ℚ × Plan) :=
  sortScoresDesc (population.map fun ind =>
    (fitness_function ind P.forecast P.catchment_area_m2 P.runoff_coefficient
       P.tank_capacity_liters P.initial_storage_liters, ind))

/-- One generation of `run_ga_optimization`: rank the population (the
unpacking of `scores[0]` raises on an empty population, modelled as
`none`), select the top `population_size // 2` as the mating pool, and
build the next generation with `childrenLoop`.  Returns the children, the
ranking that was evaluated, and the advanced random state. -/
def gaGeneration (P : GAParams) (population : List Plan) (r : Rng) :
    Option (List Plan × List (ℚ × Plan) × Rng) :=
  let scores := rankPop P population
  if scores.isEmpty then none
  else
    let selected := (scores.take (P.population_size / 2)).map Prod.snd
    match childrenLoop P.usage_min P.usage_max P.mutation_rate selected
        P.population_size P.population_size [] r with
    | none => none
    | some (children, r1) => some (children, scores, r1)

/-- The `for gen in range(generations)` loop, carrying the population and
the most recently evaluated `scores` (unbound before the first iteration:
reading it with `generations == 0` raises `NameError`, modelled as
`none`). -/
def gaLoop (P : GAParams) : ℕ → List Plan → Option (List (ℚ × Plan)) → Rng →
    Option (List (ℚ × Plan) × List Plan × Rng)
  | 0, population, lastScores, r => lastScores.map fun s => (s, population, r)
  | g + 1, population, _, r =>
    match gaGeneration P population r with
    | none => none
    | some (children, scores, r1) => gaLoop P g children (some scores) r1

/-- `run_ga_optimization` from `ga_optimization.py`: initialize the
population, run the generation loop, and return `scores[0]` of the last
evaluated ranking — the final best score and plan. -/
def run_ga_optimization (P : GAParams) (r : Rng) : Option (ℚ × Plan) :=
  let pop0 := initPopulation P.usage_min P.usage_max P.forecast.length
    P.population_size r
  match gaLoop P P.generations pop0.1 none pop0.2 with
  | none => none
  | some (scores, _, _) => scores.head?

/-- `g` generations viewed only through the evolving population (the
children replace the population each iteration). -/
def iterGens (P : GAParams) : ℕ → List Plan × Rng → Option (List Plan × Rng)
  | 0, s => some s
  | g + 1, s =>
    match gaGeneration P s.1 s.2 with
    | none => none
    | some (children, _, r1) => iterGens P g (children, r1)

/-- The all-zeros random source used for the concrete runs below. -/
def rng0 : Rng := ⟨fun _ => 0, fun _ => 0, 0, 0⟩

/-- Concrete configuration with an out-of-range runoff coefficient
(`2 ∉ [0, 1]`) and otherwise benign parameters. -/
def P7cex : GAParams := ⟨[1, 1], 1, 2, 10, 0, 1, 1, 4, 1, 0⟩

/-- Degenerate configuration with `generations = 0`. -/
def Pg0 : GAParams := ⟨[1], 1, 1, 10, 0, 1, 1, 4, 0, 0⟩

/-- Degenerate configuration with `population_size = 1`. -/
def Pps1 : GAParams := ⟨[1], 1, 1, 10, 0, 1, 1, 1, 1, 0⟩

/-- Concrete configuration with an odd population size (5). -/
def P5cex : GAParams := ⟨[0, 0], 1, 1, 10, 5, 1, 1, 5, 1, 0⟩

/-- A population of five identical plans. -/
def pop5 : List Plan := [[1, 1], [1, 1], [1, 1], [1, 1], [1, 1]]

/-- Benign configuration with an even population size (4) and one
generation. -/
def Peven : GAParams := ⟨[0, 0], 1, 1, 10, 5, 1, 1, 4, 1, 0⟩

/-- A population of four identical plans. -/
def pop4 : List Plan := [[1, 1], [1, 1], [1, 1], [1, 1]]

lemma foldl_scoreStep_penalties (c rc cap : ℚ) (days : List (ℚ × ℚ)) :
    ∀ st : ScoreState,
      ((days.foldl (scoreStep c rc cap) st).overflow_penalty,
       (days.foldl (scoreStep c rc cap) st).shortage_penalty)
      = specScoringPenalties c rc cap st.storage st.overflow_penalty
          st.shortage_penalty days := by
  induction days with
  | nil => intro st; rfl
  | cons day rest ih =>
    intro st
    rw [List.foldl_cons, ih]
    show specScoringPenalties c rc cap (scoreStep c rc cap st day).storage _ _ rest = _
    simp only [scoreStep, specScoringPenalties, sub_eq_add_neg]
    split_ifs <;> simp_all

/-- Claim C1: for every usage plan, forecast and tank parameters, the
fitness evaluator returns `1000 - (overflow_penalty + shortage_penalty)`
where the two penalties accumulate exactly as the claim's per-day update
describes (add inflow; subtract usage unconditionally; overflow check and
clamp; shortage check and clamp), here transcribed as
`specScoringPenalties`. -/
theorem fitness_function_eq_spec (usage_plan forecast : List ℚ)
    (c rc cap init : ℚ) :
    fitness_function usage_plan forecast c rc cap init
      = 1000 - ((specScoringPenalties c rc cap init 0 0 (usage_plan.zip forecast)).1
          + (specScoringPenalties c rc cap init 0 0 (usage_plan.zip forecast)).2) := by
  have h := foldl_scoreStep_penalties c rc cap (usage_plan.zip forecast)
    ⟨init, 0, 0⟩
  simp only [fitness_function]
  have h1 := congrArg Prod.fst h
  have h2 := congrArg Prod.snd h
  simp only at h1 h2
  rw [h1, h2]

lemma foldl_scoreStep_penalties_nonneg (c rc cap : ℚ) (days : List (ℚ × ℚ)) :
    ∀ st : ScoreState, 0 ≤ st.overflow_penalty → 0 ≤ st.shortage_penalty →
      0 ≤ (days.foldl (scoreStep c rc cap) st).overflow_penalty
      ∧ 0 ≤ (days.foldl (scoreStep c rc cap) st).shortage_penalty := by
  induction days with
  | nil => intro st h1 h2; exact ⟨h1, h2⟩
  | cons day rest ih =>
    intro st h1 h2
    rw [List.foldl_cons]
    apply ih
    · show 0 ≤ (scoreStep c rc cap st day).overflow_penalty
      simp only [scoreStep]
      split_ifs with h
      · simp only; nlinarith
      · simpa using h1
    · show 0 ≤ (scoreStep c rc cap st day).shortage_penalty
      simp only [scoreStep]
      split_ifs <;> simp_all <;>
        nlinarith [abs_nonneg (st.storage + day.2 * c * rc - day.1),
          abs_nonneg cap]

/-- Claim C10: the fitness evaluator's result is at most `1000` for every
usage plan, forecast and tank parameters: both penalty accumulators start at
`0` and only ever receive non-negative increments, so `1000` is a hard upper
bound on the score. -/
theorem fitness_function_le_1000 (usage_plan forecast : List ℚ)
    (c rc cap init : ℚ) :
    fitness_function usage_plan forecast c rc cap init ≤ 1000 := by
  simp only [fitness_function]
  have h := foldl_scoreStep_penalties_nonneg c rc cap
    (usage_plan.zip forecast) ⟨init, 0, 0⟩ le_rfl le_rfl
  linarith [h.1, h.2]

lemma simStep_eq_specHead (c rc cap storage : ℚ) (row : Row) (rest : List Row) :
    specReportRun c rc cap storage (row :: rest)
      = (simStep c rc cap storage row).2
        :: specReportRun c rc cap (simStep c rc cap storage row).1 rest := by
  simp only [specReportRun, simStep, dayUpdate]
  split_ifs <;> rfl

lemma simLoop_eq_spec (c rc cap : ℚ) (rows : List Row) :
    ∀ (storage : ℚ) (acc : List DailyBalanceRecord),
      simLoop c rc cap storage acc rows
        = acc ++ specReportRun c rc cap storage rows := by
  induction rows with
  | nil => intro storage acc; simp [simLoop, specReportRun]
  | cons row rest ih =>
    intro storage acc
    rw [simStep_eq_specHead, simLoop, ih]
    simp

lemma simulate_eq_specReportRun (rows : List Row) (c rc cap init : ℚ) :
    simulate_tank_levels rows c rc cap init = specReportRun c rc cap init rows := by
  rw [simulate_tank_levels, simLoop_eq_spec]
  simp

lemma length_specReportRun (c rc cap : ℚ) (rows : List Row) :
    ∀ storage : ℚ, (specReportRun c rc cap storage rows).length = rows.length := by
  induction rows with
  | nil => intro storage; rfl
  | cons row rest ih => intro storage; simp only [specReportRun, List.length_cons, ih]

/-- Claim C2: the reporting variant applies each day's update in the order
add-inflow, overflow-check-and-clamp (before usage), then usage with
shortage accounting, and emits one record per day with the five derived
numeric fields rounded to two decimals at recording time — i.e. it agrees
with the claim's transcription `specReportRun`, producing one record per
input row. -/
theorem simulate_tank_levels_eq_spec (rows : List Row) (c rc cap init : ℚ) :
    simulate_tank_levels rows c rc cap init = specReportRun c rc cap init rows
    ∧ (simulate_tank_levels rows c rc cap init).length = rows.length := by
  refine ⟨simulate_eq_specReportRun rows c rc cap init, ?_⟩
  rw [simulate_eq_specReportRun]
  exact length_specReportRun c rc cap rows init

/-- Counterexample to claim C4 as stated: one day with capacity `100`,
initial storage `0`, inflow `2 * 100 * 1 = 200` and usage `50`.  The
reporting variant clamps the overflow before applying the usage, so the
day ends with storage `50`, while
`clamp(storage_before + inflow - usage, 0, capacity) = 100`. -/
theorem reporting_storage_not_simple_clamp_cex :
    (simulate_tank_levels [⟨0, 2, 50⟩] 100 1 100 0).map
        (fun rec => rec.storage_liters) = [50]
    ∧ max 0 (min ((0 : ℚ) + 2 * 100 * 1 - 50) 100) = 100
    ∧ (50 : ℚ) ≠ 100 :=
  ⟨by norm_num [simulate_tank_levels, simLoop, simStep, dayUpdate, round2,
      round_eq],
   by norm_num, by norm_num⟩

/-- Claim C4, amended: because the reporting variant clamps the overflow
before the usage is applied, each day's end storage equals
`clamp(min(storage_before + inflow, capacity) - usage, 0, capacity)` (not
`clamp(storage_before + inflow - usage, 0, capacity)`); the overflow and
shortage still account exactly for the clamping: a positive overflow means
the pre-clamp storage exceeded the capacity by exactly that overflow, and a
positive shortage means the usage exceeded the available (post-overflow)
storage by exactly that shortage. -/
theorem dayUpdate_conservation (cap storage inflow usage : ℚ)
    (_hs : 0 ≤ storage) (_hi : 0 ≤ inflow) (hu : 0 ≤ usage) (hc : 0 ≤ cap) :
    (dayUpdate cap storage inflow usage).1
      = max 0 (min (min (storage + inflow) cap - usage) cap)
    ∧ (0 < (dayUpdate cap storage inflow usage).2.1 →
        storage + inflow = cap + (dayUpdate cap storage inflow usage).2.1)
    ∧ (0 < (dayUpdate cap storage inflow usage).2.2 →
        usage = min (storage + inflow) cap + (dayUpdate cap storage inflow usage).2.2) := by
  simp only [dayUpdate]
  split_ifs with h1 h2 h3 <;>
    refine ⟨?_, fun hov => ?_, fun hsh => ?_⟩ <;>
    dsimp only at * <;>
    (try simp only [min_def, max_def]) <;> (try split_ifs) <;> linarith

theorem dayUpdate_conservation_witness :
    (dayUpdate 100 0 200 50).1
      = max 0 (min (min ((0 : ℚ) + 200) 100 - 50) 100)
    ∧ (0 < (dayUpdate 100 0 200 50).2.1 →
        (0 : ℚ) + 200 = 100 + (dayUpdate 100 0 200 50).2.1)
    ∧ (0 < (dayUpdate 100 0 200 50).2.2 →
        (50 : ℚ) = min ((0 : ℚ) + 200) 100 + (dayUpdate 100 0 200 50).2.2) :=
  dayUpdate_conservation 100 0 200 50 (by norm_num) (by norm_num)
    (by norm_num) (by norm_num)

/-- Claim C9: in both the scoring and the reporting variant, after each
day's update the storage lies in `[0, tank_capacity]`.  In the scoring
variant the end storage is `clamp(storage + inflow - usage, 0, capacity)`
(excess and deficit are converted into penalties and clamped away), and in
the reporting variant a positive shortage leaves the storage at `0` — the
unmet usage is lost, no debt is carried into the next day. -/
theorem storage_clamped_both_variants :
    (∀ (c rc cap : ℚ) (st : ScoreState) (day : ℚ × ℚ), 0 ≤ cap →
        0 ≤ (scoreStep c rc cap st day).storage
        ∧ (scoreStep c rc cap st day).storage ≤ cap
        ∧ (scoreStep c rc cap st day).storage
            = max 0 (min (st.storage + day.2 * c * rc - day.1) cap))
    ∧ (∀ cap storage inflow usage : ℚ, 0 ≤ cap → 0 ≤ usage →
        0 ≤ (dayUpdate cap storage inflow usage).1
        ∧ (dayUpdate cap storage inflow usage).1 ≤ cap
        ∧ (0 < (dayUpdate cap storage inflow usage).2.2 →
            (dayUpdate cap storage inflow usage).1 = 0)) := by
  constructor
  · intro c rc cap st day hc
    simp only [scoreStep]
    split_ifs <;> refine ⟨?_, ?_, ?_⟩ <;> dsimp only at * <;>
      (try simp only [min_def, max_def]) <;> (try split_ifs) <;> linarith
  · intro cap storage inflow usage hc hu
    simp only [dayUpdate]
    split_ifs <;> refine ⟨?_, ?_, fun h => ?_⟩ <;> dsimp only at * <;> linarith

theorem storage_clamped_both_variants_witness :
    (0 ≤ (scoreStep 1 1 10 ⟨3, 0, 0⟩ (2, 1)).storage
      ∧ (scoreStep 1 1 10 ⟨3, 0, 0⟩ (2, 1)).storage ≤ 10
      ∧ (scoreStep 1 1 10 ⟨3, 0, 0⟩ (2, 1)).storage
          = max 0 (min ((3 : ℚ) + 1 * 1 * 1 - 2) 10))
    ∧ (0 ≤ (dayUpdate 10 3 1 2).1 ∧ (dayUpdate 10 3 1 2).1 ≤ 10
      ∧ (0 < (dayUpdate 10 3 1 2).2.2 → (dayUpdate 10 3 1 2).1 = 0)) :=
  ⟨storage_clamped_both_variants.1 1 1 10 ⟨3, 0, 0⟩ (2, 1) (by norm_num),
   storage_clamped_both_variants.2 10 3 1 2 (by norm_num) (by norm_num)⟩

lemma specReportRun_cons_full (c rc cap : ℚ) (row : Row) (rest : List Row)
    (hu0 : row.optimized_usage_liters = 0)
    (hi0 : cap < row.predicted_rainfall_mm * c * rc) (hcap : 0 ≤ cap) :
    specReportRun c rc cap cap (row :: rest)
      = { date := row.date
          rainfall_mm := row.predicted_rainfall_mm
          inflow_liters := round2 (row.predicted_rainfall_mm * c * rc)
          usage_liters := round2 0
          storage_liters := round2 cap
          overflow_liters := round2 (row.predicted_rainfall_mm * c * rc)
          shortage_liters := round2 0 }
        :: specReportRun c rc cap cap rest := by
  have h1 : cap + row.predicted_rainfall_mm * c * rc > cap := by linarith
  simp only [specReportRun, hu0]
  simp [h1, hcap, sub_zero, add_sub_cancel_left]

lemma specReportRun_cons_to_full (c rc cap init : ℚ) (row : Row)
    (rest : List Row) (hu0 : row.optimized_usage_liters = 0)
    (hi0 : cap < row.predicted_rainfall_mm * c * rc)
    (hinit : 0 ≤ init) (hcap : 0 ≤ cap) :
    specReportRun c rc cap init (row :: rest)
      = { date := row.date
          rainfall_mm := row.predicted_rainfall_mm
          inflow_liters := round2 (row.predicted_rainfall_mm * c * rc)
          usage_liters := round2 0
          storage_liters := round2 cap
          overflow_liters :=
            round2 (init + row.predicted_rainfall_mm * c * rc - cap)
          shortage_liters := round2 0 }
        :: specReportRun c rc cap cap rest := by
  have h1 : init + row.predicted_rainfall_mm * c * rc > cap := by linarith
  simp only [specReportRun, hu0]
  simp [h1, hcap, sub_zero]

lemma specReportRun_full_tank (c rc cap : ℚ) (hcap : 0 ≤ cap) :
    ∀ rows : List Row,
      (∀ row ∈ rows, row.optimized_usage_liters = 0) →
      (∀ row ∈ rows, cap < row.predicted_rainfall_mm * c * rc) →
      ∀ i : ℕ, (specReportRun c rc cap cap rows)[i]?.map
          (fun rec => (rec.overflow_liters, rec.storage_liters))
        = rows[i]?.map
            (fun row => (round2 (row.predicted_rainfall_mm * c * rc), round2 cap)) := by
  intro rows
  induction rows with
  | nil => intro _ _ i; simp [specReportRun]
  | cons row rest ih =>
    intro hu hi i
    rw [specReportRun_cons_full c rc cap row rest (hu row (by simp))
      (hi row (by simp)) hcap]
    cases i with
    | zero => simp
    | succ j =>
      simp only [List.getElem?_cons_succ]
      exact ih (fun r hr => hu r (List.mem_cons_of_mem _ hr))
        (fun r hr => hi r (List.mem_cons_of_mem _ hr)) j

/-- Counterexample to claim C6 as stated: two days at rainfall `2` mm over
catchment `100` with runoff `1` (inflow `200 > capacity = 100` each day),
usage zero, initial storage `0`.  On day 2 the tank is already full, so the
reported overflow is the full inflow `200`, not
`inflow - tank_capacity = 100`. -/
theorem overflow_scenario_cex :
    (simulate_tank_levels [⟨0, 2, 0⟩, ⟨1, 2, 0⟩] 100 1 100 0).map
        (fun rec => rec.overflow_liters) = [100, 200]
    ∧ (2 * 100 * 1 : ℚ) - 100 = 100
    ∧ (200 : ℚ) ≠ 100 :=
  ⟨by norm_num [simulate_tank_levels, simLoop, simStep, dayUpdate, round2,
      round_eq],
   by norm_num, by norm_num⟩

/-- Claim C6, amended: for a forecast whose daily inflow exceeds the tank
capacity every day and an all-zero usage plan (with non-negative initial
storage and capacity), every day after day 1 reports
`overflow_liters = inflow` — the full inflow spills because the tank enters
the day already at capacity — and `storage_liters = tank_capacity` (both as
recorded, i.e. rounded to two decimals). -/
theorem overflow_full_inflow_after_first_day (c rc cap init : ℚ)
    (rows : List Row)
    (husage : ∀ row ∈ rows, row.optimized_usage_liters = 0)
    (hinflow : ∀ row ∈ rows, cap < row.predicted_rainfall_mm * c * rc)
    (hinit : 0 ≤ init) (hcap : 0 ≤ cap) :
    ∀ i : ℕ, 1 ≤ i →
      (simulate_tank_levels rows c rc cap init)[i]?.map
          (fun rec => (rec.overflow_liters, rec.storage_liters))
        = rows[i]?.map
            (fun row => (round2 (row.predicted_rainfall_mm * c * rc), round2 cap)) := by
  intro i hi
  rw [simulate_eq_specReportRun]
  cases rows with
  | nil => simp [specReportRun]
  | cons row rest =>
    rw [specReportRun_cons_to_full c rc cap init row rest
      (husage row (by simp)) (hinflow row (by simp)) hinit hcap]
    obtain ⟨j, rfl⟩ : ∃ j, i = j + 1 := ⟨i - 1, by omega⟩
    simp only [List.getElem?_cons_succ]
    exact specReportRun_full_tank c rc cap hcap rest
      (fun r hr => husage r (List.mem_cons_of_mem _ hr))
      (fun r hr => hinflow r (List.mem_cons_of_mem _ hr)) j

theorem overflow_full_inflow_witness :
    (simulate_tank_levels [⟨0, 2, 0⟩, ⟨1, 3, 0⟩] 100 1 100 0)[1]?.map
        (fun rec => (rec.overflow_liters, rec.storage_liters))
      = ([(⟨0, 2, 0⟩ : Row), ⟨1, 3, 0⟩][1]?).map
          (fun row => (round2 (row.predicted_rainfall_mm * 100 * 1), round2 100)) :=
  overflow_full_inflow_after_first_day 100 1 100 0 [⟨0, 2, 0⟩, ⟨1, 3, 0⟩]
    (by intro row hr; fin_cases hr <;> rfl)
    (by intro row hr; fin_cases hr <;> norm_num)
    (by norm_num) (by norm_num) 1 (by norm_num)

lemma gaGeneration_scores_eq (P : GAParams) (pop : List Plan) (r : Rng)
    (ch : List Plan) (sc : List (ℚ × Plan)) (r1 : Rng)
    (h : gaGeneration P pop r = some (ch, sc, r1)) : sc = rankPop P pop := by
  simp only [gaGeneration] at h
  split at h
  · cases h
  · split at h
    · cases h
    · simp only [Option.some.injEq, Prod.mk.injEq] at h
      exact h.2.1.symm

lemma gaLoop_succ_structure (P : GAParams) (g : ℕ) :
    ∀ (pop : List Plan) (ls : Option (List (ℚ × Plan))) (r : Rng)
      (res : List (ℚ × Plan) × List Plan × Rng),
      gaLoop P (g + 1) pop ls r = some res →
      ∃ p q, iterGens P g (pop, r) = some (p, q)
        ∧ gaGeneration P p q = some (res.2.1, res.1, res.2.2)
        ∧ res.1 = rankPop P p := by
  induction g with
  | zero =>
    intro pop ls r res h
    simp only [gaLoop] at h
    cases hg : gaGeneration P pop r with
    | none => rw [hg] at h; cases h
    | some t =>
      obtain ⟨children, scores, r1⟩ := t
      rw [hg] at h
      simp only [gaLoop, Option.map_some', Option.some.injEq] at h
      refine ⟨pop, r, rfl, ?_, ?_⟩
      · rw [hg, ← h]
      · rw [← h]
        exact (gaGeneration_scores_eq P pop r children scores r1 hg).symm ▸ rfl
  | succ g' ih =>
    intro pop ls r res h
    rw [gaLoop] at h
    cases hg : gaGeneration P pop r with
    | none => rw [hg] at h; cases h
    | some t =>
      obtain ⟨children, scores, r1⟩ := t
      rw [hg] at h
      obtain ⟨p, q, hiter, hgen, hsc⟩ := ih children (some scores) r1 res h
      refine ⟨p, q, ?_, hgen, hsc⟩
      rw [iterGens, hg]
      exact hiter

/-- Claim C3: the genetic optimizer's return value is `scores[0]` of the
last evaluated ranking — the ranking computed at the start of the final
loop iteration over the population reached after `generations - 1`
generation steps (`iterGens`).  The children built during that final
iteration do become the final population (third conjunct), but the returned
result is determined solely by the ranking of the pre-final population, so
those children are never evaluated or considered. -/
theorem run_ga_returns_best_of_last_ranking (P : GAParams) (r : Rng) (g : ℕ)
    (hg : P.generations = g + 1) (res : ℚ × Plan)
    (hrun : run_ga_optimization P r = some res) :
    ∃ p q, iterGens P g
        ((initPopulation P.usage_min P.usage_max P.forecast.length
            P.population_size r).1,
         (initPopulation P.usage_min P.usage_max P.forecast.length
            P.population_size r).2) = some (p, q)
      ∧ (∃ children r2, gaGeneration P p q = some (children, rankPop P p, r2))
      ∧ (rankPop P p).head? = some res := by
  simp only [run_ga_optimization, hg] at hrun
  cases hloop : gaLoop P (g + 1)
      (initPopulation P.usage_min P.usage_max P.forecast.length
        P.population_size r).1 none
      (initPopulation P.usage_min P.usage_max P.forecast.length
        P.population_size r).2 with
  | none => rw [hloop] at hrun; cases hrun
  | some t =>
    obtain ⟨scores, fpop, r2⟩ := t
    rw [hloop] at hrun
    obtain ⟨p, q, hiter, hgen, hsc⟩ :=
      gaLoop_succ_structure P g _ none _ _ hloop
    refine ⟨p, q, hiter, ⟨fpop, r2, ?_⟩, ?_⟩
    · rw [← hsc]; exact hgen
    · rw [← hsc]; exact hrun

lemma childrenLoop_length (usage_min usage_max mutation_rate : ℚ)
    (selected : List Plan) (target : ℕ) (hsel : 2 ≤ selected.length) :
    ∀ (fuel : ℕ) (acc : List Plan) (r : Rng),
      target ≤ acc.length + 2 * fuel →
      ∃ ch r1, childrenLoop usage_min usage_max mutation_rate selected target
          fuel acc r = some (ch, r1)
        ∧ ch.length = acc.length + 2 * ((target - acc.length + 1) / 2) := by
  intro fuel
  induction fuel with
  | zero =>
    intro acc r hle
    simp only [childrenLoop]
    rw [if_neg (by omega)]
    exact ⟨acc, r, rfl, by omega⟩
  | succ f ih =>
    intro acc r hle
    by_cases hlt : acc.length < target
    · obtain ⟨p1, p2, r1, hs⟩ :
          ∃ p1 p2 r1, sample2 selected r = some (p1, p2, r1) := by
        simp only [sample2]
        rw [if_pos hsel]
        exact ⟨_, _, _, rfl⟩
      have key : ∀ (x y : Plan) (r' : Rng), ∃ ch r2,
          childrenLoop usage_min usage_max mutation_rate selected target f
            (acc ++ [x, y]) r' = some (ch, r2)
          ∧ ch.length = acc.length + 2 * ((target - acc.length + 1) / 2) := by
        intro x y r'
        obtain ⟨ch, r2, h1, h2⟩ := ih (acc ++ [x, y]) r'
          (by simp only [List.length_append, List.length_cons,
            List.length_nil]; omega)
        refine ⟨ch, r2, h1, ?_⟩
        simp only [List.length_append, List.length_cons, List.length_nil] at h2
        omega
      simp only [childrenLoop]
      rw [if_pos hlt, hs]
      exact key _ _ _
    · simp only [childrenLoop]
      rw [if_neg hlt]
      exact ⟨acc, r, rfl, by omega⟩

lemma length_insertDesc (x : ℚ × Plan) :
    ∀ l, (insertDesc x l).length = l.length + 1 := by
  intro l
  induction l with
  | nil => rfl
  | cons y ys ih =>
    simp only [insertDesc]
    split_ifs <;> simp [ih]

lemma length_sortScoresDesc : ∀ l, (sortScoresDesc l).length = l.length := by
  intro l
  induction l with
  | nil => rfl
  | cons x xs ih =>
    simp only [sortScoresDesc, length_insertDesc, ih, List.length_cons]

lemma length_rankPop (P : GAParams) (pop : List Plan) :
    (rankPop P pop).length = pop.length := by
  simp [rankPop, length_sortScoresDesc]

/-- Claim C5, amended: the children-building loop appends two children per
pass with no truncation, so the generation it builds has
`2 * ⌈population_size / 2⌉` members — exactly `population_size` when
`population_size` is even, but `population_size + 1` when it is odd.
Consequently the population evaluated by later generations has that size,
not always exactly `population_size`. -/
theorem gaGeneration_next_size (P : GAParams) (pop : List Plan) (r : Rng)
    (h4 : 4 ≤ P.population_size) (hpop : P.population_size / 2 ≤ pop.length) :
    ∃ ch sc r1, gaGeneration P pop r = some (ch, sc, r1)
      ∧ ch.length = 2 * ((P.population_size + 1) / 2) := by
  have hlen : (rankPop P pop).length = pop.length := length_rankPop P pop
  have hne : (rankPop P pop).isEmpty = false := by
    cases hrp : rankPop P pop with
    | nil => rw [hrp] at hlen; simp at hlen; omega
    | cons a l => rfl
  have hsel : 2 ≤ (((rankPop P pop).take (P.population_size / 2)).map
      Prod.snd).length := by
    simp only [List.length_map, List.length_take, hlen]
    omega
  obtain ⟨ch, r1, hc, hl⟩ := childrenLoop_length P.usage_min P.usage_max
    P.mutation_rate _ P.population_size hsel P.population_size [] r (by omega)
  refine ⟨ch, rankPop P pop, r1, ?_, ?_⟩
  · simp only [gaGeneration]
    rw [if_neg (by simp [hne]), hc]
  · simpa using hl

lemma randUniform_bounds (a b : ℚ) (hab : a ≤ b) (t : ℚ) (h0 : 0 ≤ t)
    (h1 : t ≤ 1) : a ≤ a + t * (b - a) ∧ a + t * (b - a) ≤ b :=
  ⟨by nlinarith, by nlinarith⟩

/-- Claim C8: every usage plan produced by initialization
(`create_individual`), `crossover`, or `mutate` has every daily value in
`[usage_min, usage_max]` — provided the unit-interval random stream really
yields values in `[0, 1]` and `usage_min ≤ usage_max`: initial plans draw
each day uniformly from the range, crossover only splices values from two
in-bounds parents, and mutation replaces exactly one day with a fresh
uniform draw from the same range. -/
theorem plans_stay_in_bounds :
    (∀ (usage_min usage_max : ℚ) (n : ℕ) (r : Rng),
        (∀ k, 0 ≤ r.units k ∧ r.units k ≤ 1) → usage_min ≤ usage_max →
        ∀ x ∈ (create_individual usage_min usage_max n r).1,
          usage_min ≤ x ∧ x ≤ usage_max)
    ∧ (∀ (usage_min usage_max : ℚ) (parent1 parent2 : Plan) (r : Rng),
        (∀ x ∈ parent1, usage_min ≤ x ∧ x ≤ usage_max) →
        (∀ x ∈ parent2, usage_min ≤ x ∧ x ≤ usage_max) →
        (∀ x ∈ (crossover parent1 parent2 r).1.1,
          usage_min ≤ x ∧ x ≤ usage_max)
        ∧ (∀ x ∈ (crossover parent1 parent2 r).1.2,
          usage_min ≤ x ∧ x ≤ usage_max))
    ∧ (∀ (usage_min usage_max : ℚ) (ind : Plan) (r : Rng),
        (∀ k, 0 ≤ r.units k ∧ r.units k ≤ 1) → usage_min ≤ usage_max →
        (∀ x ∈ ind, usage_min ≤ x ∧ x ≤ usage_max) →
        ∀ x ∈ (mutate usage_min usage_max ind r).1,
          usage_min ≤ x ∧ x ≤ usage_max) := by
  refine ⟨?_, ?_, ?_⟩
  · intro um uM n
    induction n with
    | zero => intro r _ _ x hx; cases hx
    | succ m ih =>
      intro r hr hab x hx
      simp only [create_individual, randUniform, nextUnit] at hx
      rcases List.mem_cons.mp hx with rfl | hx'
      · exact randUniform_bounds um uM hab _ (hr r.uIdx).1 (hr r.uIdx).2
      · exact ih { r with uIdx := r.uIdx + 1 } (fun k => hr k) hab x hx'
  · intro um uM p1 p2 r h1 h2
    constructor
    · intro x hx
      simp only [crossover] at hx
      rcases List.mem_append.mp hx with hx' | hx'
      · exact h1 x (List.mem_of_mem_take hx')
      · exact h2 x (List.mem_of_mem_drop hx')
    · intro x hx
      simp only [crossover] at hx
      rcases List.mem_append.mp hx with hx' | hx'
      · exact h2 x (List.mem_of_mem_take hx')
      · exact h1 x (List.mem_of_mem_drop hx')
  · intro um uM ind r hr hab hind x hx
    simp only [mutate, randUniform, nextUnit, nextNat] at hx
    rcases List.mem_or_eq_of_mem_set hx with hx' | rfl
    · exact hind x hx'
    · exact randUniform_bounds um uM hab _ (hr _).1 (hr _).2


theorem plans_stay_in_bounds_witness :
    (0 : ℚ) ∈ (create_individual 0 1 1 rng0).1
    ∧ ((0 : ℚ) ≤ 0 ∧ (0 : ℚ) ≤ 1) :=
  ⟨by norm_num [create_individual, randUniform, nextUnit, rng0],
   plans_stay_in_bounds.1 0 1 1 rng0 (fun k => by norm_num [rng0])
     (by norm_num) 0
     (by norm_num [create_individual, randUniform, nextUnit, rng0])⟩

/-- Counterexample to claim C7 as stated: `run_ga_optimization` performs no
input validation — with `runoff_coefficient = 2`, outside `[0, 1]`, the
optimization still runs to completion and returns a plan instead of
surfacing an error. -/
theorem invalid_config_not_rejected_cex :
    ¬(P7cex.runoff_coefficient ≤ 1)
    ∧ (run_ga_optimization P7cex rng0).isSome = true := by
  constructor
  · norm_num [P7cex]
  · norm_num [run_ga_optimization, P7cex, rng0, initPopulation,
      create_individual, randUniform, nextUnit, nextNat, gaLoop, gaGeneration,
      rankPop, fitness_function, scoreStep, sortScoresDesc, insertDesc,
      childrenLoop, sample2, crossover, mutate]

/-- Claim C7, amended: the optimizer performs no eager input validation.
Out-of-range numeric configuration (e.g. a runoff coefficient outside
`[0, 1]`) is silently accepted and optimization completes normally (see the
counterexample).  The degenerate configurations do fail, but only by
crashing, not by an eager pre-run error: `generations = 0` fails after the
loop when the never-assigned `scores` is read, and `population_size < 2`
fails during the first generation when two parents cannot be sampled. -/
theorem no_eager_validation (P : GAParams) (r : Rng) :
    (P.generations = 0 → run_ga_optimization P r = none)
    ∧ (P.population_size < 2 → 1 ≤ P.generations →
        run_ga_optimization P r = none) := by
  constructor
  · intro hg
    simp [run_ga_optimization, hg, gaLoop]
  · intro hps hg
    obtain ⟨g, hg'⟩ : ∃ g, P.generations = g + 1 :=
      ⟨P.generations - 1, by omega⟩
    have h01 : P.population_size = 0 ∨ P.population_size = 1 := by omega
    rcases h01 with h0 | h1
    · simp [run_ga_optimization, hg', h0, initPopulation, gaLoop,
        gaGeneration, rankPop, sortScoresDesc]
    · simp [run_ga_optimization, hg', h1, initPopulation, gaLoop,
        gaGeneration, rankPop, sortScoresDesc, insertDesc, childrenLoop,
        sample2]

theorem no_eager_validation_witness :
    run_ga_optimization Pg0 rng0 = none
    ∧ run_ga_optimization Pps1 rng0 = none :=
  ⟨(no_eager_validation Pg0 rng0).1 rfl,
   (no_eager_validation Pps1 rng0).2 (by decide) (by decide)⟩

/-- Counterexample to claim C5 as stated: with `population_size = 5` the
children-building loop appends two children per pass and never truncates,
so the generation it builds holds `6` individuals, not exactly
`population_size = 5`. -/
theorem children_overshoot_cex :
    ((gaGeneration P5cex pop5 rng0).map fun t => t.1.length) = some 6
    ∧ P5cex.population_size = 5 := by
  constructor
  · norm_num [gaGeneration, P5cex, pop5, rng0, rankPop, fitness_function,
      scoreStep, sortScoresDesc, insertDesc, childrenLoop, sample2, crossover,
      mutate, nextUnit, nextNat, randUniform]
  · rfl

theorem gaGeneration_next_size_witness :
    ∃ ch sc r1, gaGeneration Peven pop4 rng0 = some (ch, sc, r1)
      ∧ ch.length = 2 * ((Peven.population_size + 1) / 2) :=
  gaGeneration_next_size Peven pop4 rng0 (by decide) (by decide)

theorem run_ga_returns_best_witness :
    ∃ p q, iterGens Peven 0
        ((initPopulation Peven.usage_min Peven.usage_max
            Peven.forecast.length Peven.population_size rng0).1,
         (initPopulation Peven.usage_min Peven.usage_max
            Peven.forecast.length Peven.population_size rng0).2) = some (p, q)
      ∧ (∃ children r2,
          gaGeneration Peven p q = some (children, rankPop Peven p, r2))
      ∧ (rankPop Peven p).head? = some (1000, [1, 1]) :=
  run_ga_returns_best_of_last_ranking Peven rng0 0 rfl (1000, [1, 1])
    (by norm_num [run_ga_optimization, Peven, rng0, initPopulation,
      create_individual, randUniform, nextUnit, nextNat, gaLoop, gaGeneration,
      rankPop, fitness_function, scoreStep, sortScoresDesc, insertDesc,
      childrenLoop, sample2, crossover, mutate])

end RainTank
